import Mathlib

/-!
Verification of the gofer RMI fabric (agent-side request consumer, client-side
synchronous and asynchronous policies, plugin loader, transport factory)
against its natural-language specification.

The Python sources are shallowly embedded: each relevant class/method becomes a
Lean definition over explicit state; side effects (AMQP sends, acks, pending
store writes, dispatcher invocations) become entries of an action trace; raised
exceptions become sum-type outcomes.  Wall-clock time is modelled with exact
rationals.
-/

namespace Gofer

/-! ## Shared result model

Modelled from the spec: `gofer.rmi.dispatcher.Return` (the module is not in the
provided slice).  Per the spec, a terminal `result` object is either
`{retval: ...}` on success or `{exval: ...}` on failure; `succeeded()` tests
for the presence of `retval`. -/

/-- Modelled from the spec: `gofer.rmi.dispatcher.Return` is missing from the
slice; per the spec a terminal result either succeeded carrying `retval` or
failed carrying `exval` (the remote exception description). -/
inductive Return where
  | value (retval : String)
  | exception (exval : String)
deriving DecidableEq, Repr

/-! ## Window

Modelled from the spec: `gofer.messaging.window.Window` (the module is not in
the provided slice).  Per the spec, a window is `(begin, duration)` absolute
times with predicates `future()` / `past()` / `current()`, and a window whose
begin equals `now` is current, not past. -/

/-- Modelled from the spec: `gofer.messaging.window.Window` is missing from
the slice; an execution window is the absolute `begin` time and a `duration`
in seconds. -/
structure Window where
  begin : ℚ
  duration : ℚ
deriving DecidableEq, Repr

/-- Modelled from the spec: `Window.future()` holds when the window opens
strictly after `now` (a window beginning exactly at `now` is current). -/
def Window.future (w : Window) (now : ℚ) : Bool :=
  now < w.begin

/-- Modelled from the spec: `Window.past()` holds when the window closed
strictly before `now` (a window ending exactly at `now` is current). -/
def Window.past (w : Window) (now : ℚ) : Bool :=
  w.begin + w.duration < now

/-! ## Agent-side request envelope (gofer/messaging/consumer.py)

The fields of the received envelope that the consumer path reads: `sn`,
`version`, `replyto`, `window`, `any`.  `window = none` models the Python
value not being a dict (absent or malformed), which `__checkwindow` treats as
no window. -/

/-- An inbound request envelope as seen by the `RequestConsumer`. -/
structure Envelope where
  sn : String
  version : String
  replyto : Option String
  window : Option Window
  any : String
deriving DecidableEq, Repr

/-- One observable action of the consumer: a reply-producer send, a pending
store append, a dispatcher invocation, or an AMQP ack. -/
inductive Act where
  | sendStarted (dest sn any : String)
  | sendReply (dest sn any : String) (result : Return)
  | pendingAdd (sn : String)
  | dispatched (sn : String)
  | ack
deriving DecidableEq, Repr

/-- `RequestConsumer.sendreply`: when `replyto` is absent nothing is sent;
otherwise one reply envelope `(sn, any, result)` goes to `replyto`. -/
def sendreplyActs (env : Envelope) (result : Return) : List Act :=
  match env.replyto with
  | none => []
  | some d => [Act.sendReply d env.sn env.any result]

/-- `RequestConsumer.sendstarted`: when `replyto` is absent nothing is sent;
otherwise one `status='started'` envelope `(sn, any)` goes to `replyto`. -/
def sendstartedActs (env : Envelope) : List Act :=
  match env.replyto with
  | none => []
  | some d => [Act.sendStarted d env.sn env.any]

/-- Outcome of `RequestConsumer.__checkwindow`: raise `WindowPending`, raise
`WindowMissed`, or fall through. -/
inductive WindowCheck where
  | pending
  | missed
  | current
deriving DecidableEq, Repr

/-- `RequestConsumer.__checkwindow`: a non-dict window falls through; a future
window raises `WindowPending` (after queueing); a past window raises
`WindowMissed`; otherwise fall through.  `future()` is tested first, exactly
as in the source. -/
def checkwindow (now : ℚ) (env : Envelope) : WindowCheck :=
  match env.window with
  | none => WindowCheck.current
  | some w =>
      if w.future now then WindowCheck.pending
      else if w.past now then WindowCheck.missed
      else WindowCheck.current

/-- `RequestConsumer.__dispatch` as an action trace.  `dispatch` abstracts
`self.__dispatcher.dispatch` (the RMI dispatcher, which packages every user
outcome as a `Return`).  In the source the `WindowPending` raise is preceded
by `pending.add(envelope)`; the `WindowMissed` handler replies with
`Return.exception()`, which packages the in-flight `WindowMissed` exception.
The concurrent path defers `sendreply` to the pool's completion callback with
the same payload; the trace below records the causal send order common to both
paths. -/
def dispatchActs (dispatch : Envelope → Return) (now : ℚ) (env : Envelope) : List Act :=
  match checkwindow now env with
  | WindowCheck.pending => [Act.pendingAdd env.sn]
  | WindowCheck.missed => sendreplyActs env (Return.exception "WindowMissed")
  | WindowCheck.current =>
      sendstartedActs env ++ [Act.dispatched env.sn] ++ sendreplyActs env (dispatch env)

/-- The supported envelope protocol version (spec: exactly "1"). -/
def version : String := "1"

/-- `Consumer.valid`: an envelope is valid iff its version matches the
supported version. -/
def valid (ver : String) (env : Envelope) : Bool :=
  env.version = ver

/-- `Consumer.__received`: dispatch the envelope when valid, then ack.  An
invalid (version-mismatched) envelope is only acked. -/
def receivedActs (ver : String) (dispatch : Envelope → Return) (now : ℚ)
    (env : Envelope) : List Act :=
  (if valid ver env then dispatchActs dispatch now env else []) ++ [Act.ack]

/-- The receive loop over a sequence of fetched envelopes: each is processed
by `Consumer.__received` in arrival order. -/
def processAll (ver : String) (dispatch : Envelope → Return) (now : ℚ)
    (envs : List Envelope) : List Act :=
  (envs.map (receivedActs ver dispatch now)).flatten

/-- Reply-traffic filter: the `started` and terminal sends that carry serial
number `sn`. -/
def relevantFor (sn : String) : Act → Bool
  | Act.sendStarted _ s _ => s = sn
  | Act.sendReply _ s _ _ => s = sn
  | _ => false

/-! ## Client-side reply reader (gofer/messaging/consumer.py, class Reader)

The reply queue is modelled as a list of fetch events in arrival order: each
event carries the delay (seconds spent blocked in `receiver.fetch`) before the
message becomes available, measured from the start of that fetch, together
with the reply envelope.  `fetch(timeout)` delivers the head event when its
delay is within the timeout, and otherwise raises `Empty` after waiting the
full timeout (leaving the message in the queue). -/

/-- A reply envelope as read by the client: serial number, optional `status`
string (`started` / `progress` / ...), and optional terminal `result`. -/
structure Reply where
  sn : String
  status : Option String
  result : Option Return
deriving DecidableEq, Repr

/-- One message arrival on the reply queue: the blocking delay of the fetch
that obtains it, and the envelope itself. -/
structure FetchEvent where
  delay : ℚ
  env : Reply
deriving DecidableEq, Repr

/-- The observable result of one `Reader.search` call: the envelope found (if
any), the queue contents left unconsumed, the total time spent blocked in
fetches, and the serial numbers of the discarded (acked) envelopes. -/
structure SearchResult where
  found : Option Reply
  rest : List FetchEvent
  elapsed : ℚ
  acked : List String
deriving DecidableEq, Repr

namespace Reader

/-- `Reader.search(sn, timeout)`: loop fetching with the SAME `timeout` on
every iteration (the source never decrements it); return the first envelope
whose `sn` matches; ack and discard envelopes with a different `sn`; return
nothing when a fetch comes back empty (no message arrives within `timeout` of
that fetch starting). -/
def search (sn : String) (timeout : ℚ) : List FetchEvent → SearchResult
  | [] => ⟨none, [], timeout, []⟩
  | ev :: tail =>
      if ev.delay ≤ timeout then
        if ev.env.sn = sn then ⟨some ev.env, tail, ev.delay, []⟩
        else
          let r := search sn timeout tail
          ⟨r.found, r.rest, ev.delay + r.elapsed, ev.env.sn :: r.acked⟩
      else ⟨none, ev :: tail, timeout, []⟩

theorem search_found_rest_length (sn : String) (timeout : ℚ) :
    ∀ s : List FetchEvent, ∀ e, (search sn timeout s).found = some e →
      (search sn timeout s).rest.length < s.length := by
  intro s
  induction s with
  | nil => intro e h; simp [search] at h
  | cons ev tail ih =>
      intro e h
      by_cases hd : ev.delay ≤ timeout
      · by_cases hsn : ev.env.sn = sn
        · simp [search, hd, hsn]
        · simp only [search, if_pos hd, if_neg hsn] at h ⊢
          exact Nat.lt_succ_of_lt (ih e h)
      · simp [search, hd] at h

end Reader

/-! ## Synchronous policy (gofer/rmi/policy.py, class Synchronous) -/

/-- The visible outcome of a synchronous call: a returned `retval`, a raised
`RemoteException` reconstructed from the failure, or a raised
`RequestTimeout(sn, phase)` with phase 0 (started missing) or 1 (reply
missing). -/
inductive Outcome where
  | ok (retval : String)
  | remoteExc (exval : String)
  | timedOut (sn : String) (phase : Nat)
deriving DecidableEq, Repr

/-- `Synchronous.__on_reply`: wrap the envelope's `result` as a `Return`;
when it succeeded (has `retval`) return it, otherwise raise
`RemoteException`.  An absent result (e.g. a status envelope) wraps to an
empty `Return`, which has no `retval` and therefore also raises. -/
def onReply (result : Option Return) : Outcome :=
  match result with
  | some (Return.value v) => Outcome.ok v
  | some (Return.exception e) => Outcome.remoteExc e
  | none => Outcome.remoteExc ""

namespace Synchronous

/-- `Synchronous.__get_started`: search for `sn` with timeout
`self.timeout[0]`.  No envelope raises `RequestTimeout(sn, 0)`.  A `started`
status falls through (phase B follows).  Any other envelope goes to
`__on_reply`, whose return value is DISCARDED on success (phase B follows)
and whose `RemoteException` propagates on failure.  Returns the raised
outcome (if any) and the unconsumed queue. -/
def getStarted (sn : String) (start : ℚ) (stream : List FetchEvent) :
    Option Outcome × List FetchEvent :=
  let r := Reader.search sn start stream
  match r.found with
  | none => (some (Outcome.timedOut sn 0), r.rest)
  | some env =>
      if env.status = some "started" then (none, r.rest)
      else
        match onReply env.result with
        | Outcome.ok _ => (none, r.rest)
        | o => (some o, r.rest)

/-- `Synchronous.__get_reply`: loop with a mutable budget initialised to
`timeout.duration`; each round searches with the truncated budget
(`int(timeout)`), measures the elapsed time of the search, raises
`RequestTimeout(sn, 1)` when the elapsed time exceeds the remaining budget
(checked BEFORE the envelope is examined), otherwise deducts it; a `progress`
envelope fires the progress callback and loops; any other envelope is handed
to `__on_reply`; an empty search raises `RequestTimeout(sn, 1)`.  The second
component collects the envelopes passed to the progress callback, in call
order. -/
def getReply (sn : String) (budget : ℚ) (stream : List FetchEvent) :
    Outcome × List Reply :=
  let r := Reader.search sn ((⌊budget⌋ : ℤ) : ℚ) stream
  if budget < r.elapsed then (Outcome.timedOut sn 1, [])
  else
    match h : r.found with
    | some env =>
        if env.status = some "progress" then
          let p := getReply sn (budget - r.elapsed) r.rest
          (p.1, env :: p.2)
        else (onReply env.result, [])
    | none => (Outcome.timedOut sn 1, [])
termination_by stream.length
decreasing_by
  exact Reader.search_found_rest_length sn ((⌊budget⌋ : ℤ) : ℚ) stream env h

/-- Unfolding equation for `getReply` with the dependent match replaced by a
plain one. -/
theorem getReply_eq (sn : String) (budget : ℚ) (stream : List FetchEvent) :
    getReply sn budget stream =
      if budget < (Reader.search sn ((⌊budget⌋ : ℤ) : ℚ) stream).elapsed then
        (Outcome.timedOut sn 1, [])
      else
        match (Reader.search sn ((⌊budget⌋ : ℤ) : ℚ) stream).found with
        | some env =>
            if env.status = some "progress" then
              ((getReply sn
                  (budget - (Reader.search sn ((⌊budget⌋ : ℤ) : ℚ) stream).elapsed)
                  (Reader.search sn ((⌊budget⌋ : ℤ) : ℚ) stream).rest).1,
               env :: (getReply sn
                  (budget - (Reader.search sn ((⌊budget⌋ : ℤ) : ℚ) stream).elapsed)
                  (Reader.search sn ((⌊budget⌋ : ℤ) : ℚ) stream).rest).2)
            else (onReply env.result, [])
        | none => (Outcome.timedOut sn 1, []) := by
  rw [getReply]
  cases (Reader.search sn ((⌊budget⌋ : ℤ) : ℚ) stream).found <;> rfl

/-- The request message produced by `Synchronous.send`: `ttl` is
`self.timeout[0]` and `replyto` is the transient reply queue's destination. -/
structure SentMessage where
  ttl : ℚ
  replyto : Option String
  request : String
deriving DecidableEq, Repr

/-- The synchronous policy state: the timeout tuple `(start, duration)` and
the transient auto-delete reply queue's destination. -/
structure Policy where
  start : ℚ
  duration : ℚ
  replyQueue : String
deriving DecidableEq, Repr

/-- `Synchronous.send`: send the request with `ttl=timeout[0]` and
`replyto=queue.destination()`, then run phase A (`__get_started`) and, when
it falls through, phase B (`__get_reply`) on the remaining queue. -/
def send (p : Policy) (sn : String) (request : String)
    (stream : List FetchEvent) : SentMessage × (Outcome × List Reply) :=
  let sent : SentMessage := ⟨p.start, some p.replyQueue, request⟩
  let a := getStarted sn p.start stream
  match a.1 with
  | some o => (sent, (o, []))
  | none => (sent, getReply sn p.duration a.2)

end Synchronous

/-! ## Asynchronous policy and trigger (gofer/rmi/policy.py) -/

namespace Asynchronous

/-- The asynchronous policy state: correlation tag, timeout tuple start
component (used as `ttl`), and the `trigger` option. -/
structure Policy where
  ctag : Option String
  start : Option ℚ
  trigger : Int
deriving DecidableEq, Repr

/-- `Asynchronous.replyto`: the destination of the queue named by the
correlation tag, or nothing when no `ctag` is configured. -/
def Policy.replyto (p : Policy) : Option String :=
  p.ctag

end Asynchronous

/-- `Trigger`: the ephemeral client-side record of an unsent request: pending
flag (true until fired), generated serial number, destination, and request. -/
structure Trigger where
  pending : Bool
  sn : String
  destination : String
  request : String
deriving DecidableEq, Repr

/-- `Trigger.__init__`: a fresh trigger is pending. -/
def Trigger.new (sn destination request : String) : Trigger :=
  ⟨true, sn, destination, request⟩

/-- The request message produced by `Trigger.__send`. -/
structure AsyncSent where
  destination : String
  sn : String
  ttl : Option ℚ
  replyto : Option String
  request : String
deriving DecidableEq, Repr

/-- `Trigger.__send`: producer.send with the trigger's `sn`,
`ttl=policy.timeout[0]` and `replyto` derived from the policy's `ctag`. -/
def Trigger.fire (p : Asynchronous.Policy) (t : Trigger) : AsyncSent :=
  ⟨t.destination, t.sn, p.start, p.replyto, t.request⟩

/-- `Trigger.__call__`: when still pending, send and clear the pending flag;
otherwise raise `Exception('trigger already executed')`. -/
def Trigger.call (p : Asynchronous.Policy) (t : Trigger) :
    Except String (Trigger × AsyncSent) :=
  if t.pending then Except.ok ({ t with pending := false }, t.fire p)
  else Except.error "trigger already executed"

/-- What `Asynchronous.send` returns: the unfired trigger (manual mode) or the
serial number of the fired request together with the message sent. -/
inductive AsyncSendResult where
  | unfired (t : Trigger)
  | fired (sn : String) (sent : AsyncSent)
deriving DecidableEq, Repr

/-- `Asynchronous.send`: build a trigger; when the policy's `trigger` option
equals 1 return it unfired; otherwise fire it (via `Trigger.__call__`, whose
exception would propagate) and return its serial number. -/
def Asynchronous.send (p : Asynchronous.Policy) (sn destination request : String) :
    Except String AsyncSendResult :=
  let t := Trigger.new sn destination request
  if p.trigger = 1 then Except.ok (AsyncSendResult.unfired t)
  else (t.call p).map (fun r => AsyncSendResult.fired t.sn r.2)

/-! ## Plugin registry and loader (gofer/agent/plugin.py)

Plugins are identified by numeric ids (distinct `Plugin` objects); the global
`Plugin.plugins` dict is an association list from name to plugin id with
python-dict lookup semantics (`radd` overwrites the binding of an existing
key). -/

/-- The global `Plugin.plugins` registry. -/
abbrev Registry := List (String × Nat)

/-- Dict lookup: the binding of the given name, if any. -/
def rlookup : Registry → String → Option Nat
  | [], _ => none
  | (k, v) :: t, n => if k = n then some v else rlookup t n

/-- Dict assignment `Plugin.plugins[name] = plugin`: overwrite any existing
binding of `name`. -/
def radd (reg : Registry) (k : String) (v : Nat) : Registry :=
  (k, v) :: reg.filter (fun kv => kv.1 ≠ k)

/-- `Plugin.delete`: remove every entry (under every name) whose value is the
given plugin. -/
def rdelete (reg : Registry) (p : Nat) : Registry :=
  reg.filter (fun kv => kv.2 ≠ p)

/-- One plugin descriptor as consumed by `PluginLoader.load`, with an oracle
for the two failure points of `PluginLoader._import`: `impOk` is whether the
module body imports successfully, and `postOk` whether the post-import
steps (collation, `extend()`, initializers) succeed. -/
structure Desc where
  name : String
  path : Option String
  enabled : Bool
  impOk : Bool
  postOk : Bool
deriving DecidableEq, Repr

/-- `PluginLoader._import`: register the fresh plugin under its name; when
`main.plugin` gives a module `path`, a successful `__import__` additionally
registers it under `path`; any exception in the try block unregisters the
plugin via `Plugin.delete` and yields no plugin (`None`). -/
def importPlugin (reg : Registry) (pid : Nat) (d : Desc) :
    Registry × Option Nat :=
  let reg1 := radd reg d.name pid
  match d.path with
  | some path =>
      if d.impOk then
        let reg2 := radd reg1 path pid
        if d.postOk then (reg2, some pid) else (rdelete reg2 pid, none)
      else (rdelete reg1 pid, none)
  | none =>
      if d.impOk then
        if d.postOk then (reg1, some pid) else (rdelete reg1 pid, none)
      else (rdelete reg1 pid, none)

/-- `PluginLoader.load`: walk the sorted descriptors, skip disabled ones, and
run `_import` on each enabled one with a fresh plugin object (fresh id), keep the
successes, and continue past failures.  Returns the final registry and the
loaded plugin ids in order. -/
def loadPlugins : Registry → Nat → List Desc → Registry × List Nat
  | reg, _, [] => (reg, [])
  | reg, pid, d :: rest =>
      if d.enabled then
        let r := importPlugin reg pid d
        let t := loadPlugins r.1 (pid + 1) rest
        match r.2 with
        | some p => (t.1, p :: t.2)
        | none => (t.1, t.2)
      else loadPlugins reg pid rest

/-! ## Transport factory (gofer/transport/factory.py)

A URL is modelled as its scheme plus the rest (authority); `gofer.transport.
broker.URL` is not in the provided slice, and equality of URLs is full
structural equality of the URL string's parts.  `Transport.load` imports a
python package by its dotted path; the imported module is identified by that
path (python's import is deterministic and cached). -/

/-- A broker URL, split as scheme and authority. -/
structure URL where
  scheme : String
  authority : String
deriving DecidableEq, Repr

/-- `DEFAULT_URL = 'tcp://localhost:5672'`. -/
def DEFAULT_URL : URL := ⟨"tcp", "localhost:5672"⟩

/-- `DEFAULT_TRANSPORT = 'gofer.transport.amqplib'`. -/
def DEFAULT_TRANSPORT : String := "gofer.transport.amqplib"

/-- The process-wide `Transport.packages` map from URL to bound module. -/
abbrev Packages := List (URL × String)

/-- Map lookup `cls.packages[url]`. -/
def plookup : Packages → URL → Option String
  | [], _ => none
  | (k, v) :: t, u => if k = u then some v else plookup t u

/-- Map assignment `cls.packages[url] = mod`. -/
def pupdate (pkgs : Packages) (u : URL) (m : String) : Packages :=
  (u, m) :: pkgs.filter (fun kv => kv.1 ≠ u)

namespace Transport

/-- Package-name normalisation in `Transport.bind`: default the package, and
qualify a bare name (one with no `'.'` among its characters) under the
`gofer.transport` package. -/
def normPkg (package : Option String) : String :=
  let p := package.getD DEFAULT_TRANSPORT
  if '.' ∈ p.data then p else "gofer.transport." ++ p

/-- `Transport.load`: import the package; the bound module is identified by
its package path. -/
def load (package : String) : String :=
  package

/-- `Transport.bind`: default the URL, normalise the package, import it and
record it in the process-wide map under the (full) URL. -/
def bind (pkgs : Packages) (url : Option URL) (package : Option String) :
    Packages × String :=
  let u := url.getD DEFAULT_URL
  let m := load (normPkg package)
  (pupdate pkgs u m, m)

/-- A constructed `Transport`: its URL and the module backing it. -/
structure T where
  url : URL
  package : String
deriving DecidableEq, Repr

/-- `Transport.__init__`: default the URL; use the cached module when the URL
is already bound (KeyError absent), otherwise bind it. -/
def init (pkgs : Packages) (url : Option URL) (package : Option String) :
    Packages × T :=
  let u := url.getD DEFAULT_URL
  match plookup pkgs u with
  | some m => (pkgs, ⟨u, m⟩)
  | none =>
      let b := bind pkgs (some u) package
      (b.1, ⟨u, b.2⟩)

end Transport

/-! ## Helper lemmas -/

/-- When no envelope on the queue carries the wanted serial number, `search`
finds nothing (it acks its way to an empty fetch or the end of traffic). -/
theorem search_found_none_of_all_ne (sn : String) (timeout : ℚ) :
    ∀ s : List FetchEvent, (∀ ev ∈ s, ev.env.sn ≠ sn) →
      (Reader.search sn timeout s).found = none := by
  intro s
  induction s with
  | nil => intro _; simp [Reader.search]
  | cons ev tail ih =>
      intro h
      have hev : ev.env.sn ≠ sn := h ev (List.mem_cons_self ev tail)
      by_cases hd : ev.delay ≤ timeout
      · simp only [Reader.search, if_pos hd, if_neg hev]
        exact ih fun e he => h e (List.mem_cons_of_mem ev he)
      · simp [Reader.search, hd]

/-- A key absent from the registry filters to the identity. -/
theorem filter_key_eq_self (reg : Registry) (k : String)
    (h : rlookup reg k = none) :
    reg.filter (fun kv => kv.1 ≠ k) = reg := by
  induction reg with
  | nil => rfl
  | cons kv tail ih =>
      simp only [rlookup] at h
      by_cases hk : kv.1 = k
      · simp [hk] at h
      · simp only [List.filter_cons]
        rw [if_pos (by simpa using hk), ih (by simpa [hk] using h)]

/-- A value absent from the registry filters to the identity. -/
theorem filter_val_eq_self (reg : Registry) (p : Nat)
    (h : ∀ kv ∈ reg, kv.2 ≠ p) :
    reg.filter (fun kv => kv.2 ≠ p) = reg :=
  List.filter_eq_self.mpr fun kv hm => by simpa using h kv hm

/-! ## Claim theorems -/

/-- C1: for every envelope dispatched by the `RequestConsumer` with `replyto`
set and window neither past nor future, the reply traffic for the envelope's
`sn` is exactly one `started` status followed by the one terminal reply — so
exactly one `started` is sent and it precedes any terminal reply with that
`sn`; when `replyto` is absent, neither a `started` nor a terminal reply is
sent. -/
theorem requestConsumer_started_before_reply (dispatch : Envelope → Return)
    (now : ℚ) (env : Envelope) :
    (∀ d, env.replyto = some d → checkwindow now env = WindowCheck.current →
      (dispatchActs dispatch now env).filter (relevantFor env.sn) =
        [Act.sendStarted d env.sn env.any,
         Act.sendReply d env.sn env.any (dispatch env)]) ∧
    (env.replyto = none →
      (dispatchActs dispatch now env).filter (relevantFor env.sn) = []) := by
  constructor
  · intro d hr hw
    simp [dispatchActs, hw, sendstartedActs, sendreplyActs, hr, relevantFor]
  · intro hr
    cases hw : checkwindow now env <;>
      simp [dispatchActs, hw, sendstartedActs, sendreplyActs, hr, relevantFor]

/-- Witness for C1 at concrete inputs: one envelope with `replyto` and no
window, and one without `replyto`. -/
theorem requestConsumer_started_before_reply_witness :
    (dispatchActs (fun _ => Return.value "hi") 0
        ⟨"sn1", "1", some "dq", none, "any"⟩).filter (relevantFor "sn1") =
      [Act.sendStarted "dq" "sn1" "any",
       Act.sendReply "dq" "sn1" "any" (Return.value "hi")] ∧
    (dispatchActs (fun _ => Return.value "hi") 0
        ⟨"sn1", "1", none, none, "any"⟩).filter (relevantFor "sn1") = [] :=
  ⟨(requestConsumer_started_before_reply (fun _ => Return.value "hi") 0
      ⟨"sn1", "1", some "dq", none, "any"⟩).1 "dq" rfl (by decide),
   (requestConsumer_started_before_reply (fun _ => Return.value "hi") 0
      ⟨"sn1", "1", none, none, "any"⟩).2 rfl⟩

/-- C2: for every dispatched envelope carrying a window: a future window only
appends the envelope to the pending queue (no send of any kind, dispatcher
not invoked); a past (and not future) window sends exactly one terminal reply
carrying the `WindowMissed` exception to `replyto` (or nothing when `replyto`
is absent), and the dispatcher is not invoked; in neither case is a `started`
reply sent. -/
theorem requestConsumer_window_outcomes (dispatch : Envelope → Return)
    (now : ℚ) (env : Envelope) (w : Window) (hw : env.window = some w) :
    (w.future now = true →
      dispatchActs dispatch now env = [Act.pendingAdd env.sn]) ∧
    (w.future now = false → w.past now = true →
      ((∀ d, env.replyto = some d →
          dispatchActs dispatch now env =
            [Act.sendReply d env.sn env.any (Return.exception "WindowMissed")]) ∧
       (env.replyto = none → dispatchActs dispatch now env = []))) := by
  refine ⟨fun hf => ?_, fun hf hp => ⟨fun d hr => ?_, fun hr => ?_⟩⟩
  · simp [dispatchActs, checkwindow, hw, hf]
  · simp [dispatchActs, checkwindow, hw, hf, hp, sendreplyActs, hr]
  · simp [dispatchActs, checkwindow, hw, hf, hp, sendreplyActs, hr]

/-- Witness for C2 at concrete inputs: at time `now = 10`, a window beginning
at 20 is future (silent pending add); a window `[0, 5]` is past (one
`WindowMissed` terminal reply; nothing without `replyto`). -/
theorem requestConsumer_window_outcomes_witness :
    dispatchActs (fun _ => Return.value "r") 10
        ⟨"sn2", "1", some "dq", some ⟨20, 5⟩, "a"⟩ = [Act.pendingAdd "sn2"] ∧
    dispatchActs (fun _ => Return.value "r") 10
        ⟨"sn2", "1", some "dq", some ⟨0, 5⟩, "a"⟩ =
      [Act.sendReply "dq" "sn2" "a" (Return.exception "WindowMissed")] ∧
    dispatchActs (fun _ => Return.value "r") 10
        ⟨"sn2", "1", none, some ⟨0, 5⟩, "a"⟩ = [] :=
  ⟨(requestConsumer_window_outcomes (fun _ => Return.value "r") 10
      ⟨"sn2", "1", some "dq", some ⟨20, 5⟩, "a"⟩ ⟨20, 5⟩ rfl).1
        (by norm_num [Window.future]),
   ((requestConsumer_window_outcomes (fun _ => Return.value "r") 10
      ⟨"sn2", "1", some "dq", some ⟨0, 5⟩, "a"⟩ ⟨0, 5⟩ rfl).2
        (by norm_num [Window.future]) (by norm_num [Window.past])).1 "dq" rfl,
   ((requestConsumer_window_outcomes (fun _ => Return.value "r") 10
      ⟨"sn2", "1", none, some ⟨0, 5⟩, "a"⟩ ⟨0, 5⟩ rfl).2
        (by norm_num [Window.future]) (by norm_num [Window.past])).2 rfl⟩

/-- C6: a received envelope whose `version` differs from the supported one is
acked and nothing else happens (no dispatch, no reply of any kind); a
matching envelope is dispatched and then acked; and discarding a mismatched
envelope leaves the processing of every other envelope in the receive loop
unchanged. -/
theorem consumer_version_gate (ver : String) (dispatch : Envelope → Return)
    (now : ℚ) (env : Envelope) (xs ys : List Envelope) :
    (env.version ≠ ver → receivedActs ver dispatch now env = [Act.ack]) ∧
    (env.version = ver →
      receivedActs ver dispatch now env =
        dispatchActs dispatch now env ++ [Act.ack]) ∧
    (env.version ≠ ver →
      processAll ver dispatch now (xs ++ env :: ys) =
        processAll ver dispatch now xs ++ [Act.ack] ++
          processAll ver dispatch now ys) := by
  refine ⟨fun h => ?_, fun h => ?_, fun h => ?_⟩
  · simp [receivedActs, valid, h]
  · simp [receivedActs, valid, h]
  · simp [processAll, receivedActs, valid, h]

/-- Witness for C6 at concrete inputs: a version-"0" envelope among
version-"1" traffic is only acked and the neighbours process as without
it. -/
theorem consumer_version_gate_witness :
    receivedActs "1" (fun _ => Return.value "r") 0
        ⟨"b", "0", none, none, "a"⟩ = [Act.ack] ∧
    receivedActs "1" (fun _ => Return.value "r") 0
        ⟨"g", "1", none, none, "a"⟩ =
      dispatchActs (fun _ => Return.value "r") 0 ⟨"g", "1", none, none, "a"⟩ ++
        [Act.ack] ∧
    processAll "1" (fun _ => Return.value "r") 0
        ([⟨"g", "1", none, none, "a"⟩] ++ ⟨"b", "0", none, none, "a"⟩ ::
          [⟨"h", "1", none, none, "a"⟩]) =
      processAll "1" (fun _ => Return.value "r") 0 [⟨"g", "1", none, none, "a"⟩] ++
        [Act.ack] ++
        processAll "1" (fun _ => Return.value "r") 0 [⟨"h", "1", none, none, "a"⟩] :=
  ⟨(consumer_version_gate "1" (fun _ => Return.value "r") 0
      ⟨"b", "0", none, none, "a"⟩ [] []).1 (by decide),
   (consumer_version_gate "1" (fun _ => Return.value "r") 0
      ⟨"g", "1", none, none, "a"⟩ [] []).2.1 rfl,
   (consumer_version_gate "1" (fun _ => Return.value "r") 0
      ⟨"b", "0", none, none, "a"⟩ [⟨"g", "1", none, none, "a"⟩]
      [⟨"h", "1", none, none, "a"⟩]).2.2 (by decide)⟩

/-- C3: in the synchronous policy's reply phase, each round searches with the
remaining budget; when the elapsed wait exceeds the remaining budget
`RequestTimeout(sn, 1)` is raised; a `progress` envelope within budget fires
the progress callback and the wait continues with the budget reduced by the
elapsed time; the first terminal envelope within budget ends the call via
`__on_reply` — returning `retval` on success and raising `RemoteException` on
failure; and an empty search raises `RequestTimeout(sn, 1)`. -/
theorem synchronous_reply_phase (sn : String) (budget : ℚ)
    (stream : List FetchEvent) :
    (budget < (Reader.search sn ((⌊budget⌋ : ℤ) : ℚ) stream).elapsed →
      Synchronous.getReply sn budget stream = (Outcome.timedOut sn 1, [])) ∧
    (∀ env, (Reader.search sn ((⌊budget⌋ : ℤ) : ℚ) stream).elapsed ≤ budget →
      (Reader.search sn ((⌊budget⌋ : ℤ) : ℚ) stream).found = some env →
      env.status = some "progress" →
      Synchronous.getReply sn budget stream =
        ((Synchronous.getReply sn
            (budget - (Reader.search sn ((⌊budget⌋ : ℤ) : ℚ) stream).elapsed)
            (Reader.search sn ((⌊budget⌋ : ℤ) : ℚ) stream).rest).1,
         env :: (Synchronous.getReply sn
            (budget - (Reader.search sn ((⌊budget⌋ : ℤ) : ℚ) stream).elapsed)
            (Reader.search sn ((⌊budget⌋ : ℤ) : ℚ) stream).rest).2)) ∧
    (∀ env, (Reader.search sn ((⌊budget⌋ : ℤ) : ℚ) stream).elapsed ≤ budget →
      (Reader.search sn ((⌊budget⌋ : ℤ) : ℚ) stream).found = some env →
      env.status ≠ some "progress" →
      Synchronous.getReply sn budget stream = (onReply env.result, [])) ∧
    ((Reader.search sn ((⌊budget⌋ : ℤ) : ℚ) stream).elapsed ≤ budget →
      (Reader.search sn ((⌊budget⌋ : ℤ) : ℚ) stream).found = none →
      Synchronous.getReply sn budget stream = (Outcome.timedOut sn 1, [])) ∧
    (∀ v, onReply (some (Return.value v)) = Outcome.ok v) ∧
    (∀ e, onReply (some (Return.exception e)) = Outcome.remoteExc e) := by
  refine ⟨fun h => ?_, fun env hle hf hp => ?_, fun env hle hf hp => ?_,
    fun hle hf => ?_, fun v => rfl, fun e => rfl⟩
  · rw [Synchronous.getReply_eq, if_pos h]
  · rw [Synchronous.getReply_eq, if_neg (not_lt.mpr hle), hf]
    dsimp only
    rw [if_pos hp]
  · rw [Synchronous.getReply_eq, if_neg (not_lt.mpr hle), hf]
    dsimp only
    rw [if_neg hp]
  · rw [Synchronous.getReply_eq, if_neg (not_lt.mpr hle), hf]

/-- Witness for C3 at concrete inputs: with budget 10 a progress envelope
after 1s fires the callback and the terminal success after another 2s returns
its `retval`. -/
theorem synchronous_reply_phase_witness :
    Synchronous.getReply "s" 10
        [⟨1, ⟨"s", some "progress", none⟩⟩,
         ⟨2, ⟨"s", none, some (Return.value "v")⟩⟩] =
      (Outcome.ok "v", [⟨"s", some "progress", none⟩]) := by
  have h1 := (synchronous_reply_phase "s" 10
      [⟨1, ⟨"s", some "progress", none⟩⟩,
       ⟨2, ⟨"s", none, some (Return.value "v")⟩⟩]).2.1
    ⟨"s", some "progress", none⟩
    (by norm_num [Reader.search]) (by norm_num [Reader.search]) rfl
  have h2 := (synchronous_reply_phase "s" 9
      [⟨2, ⟨"s", none, some (Return.value "v")⟩⟩]).2.2.1
    ⟨"s", none, some (Return.value "v")⟩
    (by norm_num [Reader.search]) (by norm_num [Reader.search]) (by simp)
  rw [h1]
  norm_num [Reader.search]
  rw [h2]
  constructor <;> rfl

/-- C4 counterexample: with budget 10, a non-matching envelope after 6s is
discarded and the matching envelope after 6 more seconds is returned — after
a total wait of 12s, which exceeds the 10s budget; `search` neither gave up
when the budget was exhausted nor kept its total wait within the budget
(each fetch restarts the full timeout). -/
theorem reader_search_budget_cex :
    (Reader.search "s" 10
        [⟨6, ⟨"x", none, none⟩⟩, ⟨6, ⟨"s", none, some (Return.value "v")⟩⟩]).found
      = some ⟨"s", none, some (Return.value "v")⟩ ∧
    (Reader.search "s" 10
        [⟨6, ⟨"x", none, none⟩⟩, ⟨6, ⟨"s", none, some (Return.value "v")⟩⟩]).elapsed
      = 12 ∧
    ¬ ((12 : ℚ) ≤ 10) := by
  refine ⟨?_, ?_, by norm_num⟩ <;>
  · norm_num [Reader.search]
    rw [if_neg (show ¬("x" = "s") by decide)]

/-- C4 (amended): `search` returns the first fetched envelope whose `sn`
matches; every discarded (acked) envelope has a different `sn`; when no
matching envelope is on the queue it returns nothing; and the `timeout`
bounds each individual fetch — so the total wait is bounded by
`timeout * (discarded + 1)`, not by `timeout` itself. -/
theorem reader_search_first_match (sn : String) (timeout : ℚ) :
    ∀ s : List FetchEvent,
      (∀ a ∈ (Reader.search sn timeout s).acked, a ≠ sn) ∧
      (∀ env, (Reader.search sn timeout s).found = some env → env.sn = sn) ∧
      ((∀ ev ∈ s, ev.env.sn ≠ sn) → (Reader.search sn timeout s).found = none) ∧
      (Reader.search sn timeout s).elapsed ≤
        timeout * ((Reader.search sn timeout s).acked.length + 1) := by
  intro s
  induction s with
  | nil =>
      refine ⟨by simp [Reader.search], by simp [Reader.search],
        fun _ => by simp [Reader.search], ?_⟩
      simp [Reader.search]
  | cons ev tail ih =>
      by_cases hd : ev.delay ≤ timeout
      · by_cases hsn : ev.env.sn = sn
        · refine ⟨by simp [Reader.search, hd, hsn], ?_, ?_, ?_⟩
          · intro env h
            simp only [Reader.search, if_pos hd, if_pos hsn] at h
            cases h
            exact hsn
          · intro hall
            exact absurd hsn (hall ev (List.mem_cons_self ev tail))
          · simp only [Reader.search, if_pos hd, if_pos hsn, List.length_nil]
            calc ev.delay ≤ timeout := hd
              _ ≤ timeout * (0 + 1) := le_of_eq (by ring)
        · have hrec := ih
          refine ⟨?_, ?_, ?_, ?_⟩
          · intro a ha
            simp only [Reader.search, if_pos hd, if_neg hsn, List.mem_cons] at ha
            rcases ha with h | h
            · simpa [h] using hsn
            · exact hrec.1 a h
          · intro env h
            simp only [Reader.search, if_pos hd, if_neg hsn] at h
            exact hrec.2.1 env h
          · intro hall
            simp only [Reader.search, if_pos hd, if_neg hsn]
            exact hrec.2.2.1 fun e he => hall e (List.mem_cons_of_mem ev he)
          · simp only [Reader.search, if_pos hd, if_neg hsn, List.length_cons]
            have hb := hrec.2.2.2
            calc ev.delay + (Reader.search sn timeout tail).elapsed
                ≤ timeout + timeout * ((Reader.search sn timeout tail).acked.length + 1) :=
                  add_le_add hd hb
              _ = timeout *
                    ((((Reader.search sn timeout tail).acked.length + 1 : ℕ) : ℚ) + 1) := by
                  push_cast
                  ring
      · refine ⟨by simp [Reader.search, hd], ?_, fun _ => by simp [Reader.search, hd], ?_⟩
        · intro env h
          simp [Reader.search, hd] at h
        · simp only [Reader.search, if_neg hd, List.length_nil]
          calc timeout ≤ timeout * (0 + 1) := le_of_eq (by ring)

/-- Witness for C4 (amended) at concrete inputs: on the counterexample queue
the total wait 12 is within `10 * (1 + 1)`, and on an all-foreign queue the
search comes back empty. -/
theorem reader_search_first_match_witness :
    (Reader.search "s" 10
        [⟨6, ⟨"x", none, none⟩⟩, ⟨6, ⟨"s", none, some (Return.value "v")⟩⟩]).elapsed ≤
      10 * ((Reader.search "s" 10
        [⟨6, ⟨"x", none, none⟩⟩, ⟨6, ⟨"s", none, some (Return.value "v")⟩⟩]).acked.length + 1) ∧
    (Reader.search "s" 10 [⟨6, ⟨"x", none, none⟩⟩]).found = none :=
  ⟨(reader_search_first_match "s" 10
      [⟨6, ⟨"x", none, none⟩⟩, ⟨6, ⟨"s", none, some (Return.value "v")⟩⟩]).2.2.2,
   (reader_search_first_match "s" 10 [⟨6, ⟨"x", none, none⟩⟩]).2.2.1
     (by intro ev hm; simp at hm; simp [hm])⟩

/-- C5 counterexample: with `timeout.start = 10`, a foreign reply arrives 6s
in and the request's `started` reply 6s later — 12s after the search began,
so no matching reply arrived within `timeout.start` seconds; yet phase A does
not raise `RequestTimeout(sn, 0)` (each fetch restarts the full timeout), and
the call proceeds to phase B. -/
theorem synchronous_phaseA_timeout_cex :
    ¬ ((6 : ℚ) + 6 ≤ 10) ∧
    (Synchronous.send ⟨10, 90, "rq"⟩ "s" "req"
        [⟨6, ⟨"x", none, none⟩⟩, ⟨6, ⟨"s", some "started", none⟩⟩]).2.1 ≠
      Outcome.timedOut "s" 0 := by
  have hs : Reader.search "s" 10
      [⟨6, ⟨"x", none, none⟩⟩, ⟨6, ⟨"s", some "started", none⟩⟩] =
      ⟨some ⟨"s", some "started", none⟩, [], 12, ["x"]⟩ := by
    norm_num [Reader.search]
    decide
  have hA : Synchronous.getStarted "s" 10
      [⟨6, ⟨"x", none, none⟩⟩, ⟨6, ⟨"s", some "started", none⟩⟩] = (none, []) := by
    simp [Synchronous.getStarted, hs]
  have hB : Synchronous.getReply "s" 90 [] = (Outcome.timedOut "s" 1, []) := by
    rw [Synchronous.getReply_eq]
    norm_num [Reader.search]
  refine ⟨by norm_num, ?_⟩
  simp [Synchronous.send, hA, hB]

/-- C5 (amended): `Synchronous.send` sends the request with
`ttl = timeout.start` and `replyto` set to the transient reply queue's
destination, and when no reply envelope with the request's serial number is
on the reply queue at all (none ever arrives), phase A raises
`RequestTimeout(sn, 0)`.  The `timeout.start` bound is per fetch, not on the
total phase-A wait. -/
theorem synchronous_phaseA_timeout (p : Synchronous.Policy) (sn request : String)
    (stream : List FetchEvent) :
    (Synchronous.send p sn request stream).1.ttl = p.start ∧
    (Synchronous.send p sn request stream).1.replyto = some p.replyQueue ∧
    ((∀ ev ∈ stream, ev.env.sn ≠ sn) →
      (Synchronous.send p sn request stream).2 = (Outcome.timedOut sn 0, [])) := by
  refine ⟨?_, ?_, fun h => ?_⟩
  · cases hg : (Synchronous.getStarted sn p.start stream).1 <;>
      simp [Synchronous.send, hg]
  · cases hg : (Synchronous.getStarted sn p.start stream).1 <;>
      simp [Synchronous.send, hg]
  · have hf := search_found_none_of_all_ne sn p.start stream h
    simp [Synchronous.send, Synchronous.getStarted, hf]

/-- Witness for C5 at concrete inputs: a queue holding only a foreign reply
never yields the started marker; the call times out in phase 0 and the sent
message carries the policy's `ttl` and `replyto`. -/
theorem synchronous_phaseA_timeout_witness :
    (Synchronous.send ⟨10, 90, "rq"⟩ "s" "req" [⟨1, ⟨"x", none, none⟩⟩]).1.ttl = 10 ∧
    (Synchronous.send ⟨10, 90, "rq"⟩ "s" "req" [⟨1, ⟨"x", none, none⟩⟩]).1.replyto =
      some "rq" ∧
    (Synchronous.send ⟨10, 90, "rq"⟩ "s" "req" [⟨1, ⟨"x", none, none⟩⟩]).2 =
      (Outcome.timedOut "s" 0, []) :=
  ⟨(synchronous_phaseA_timeout ⟨10, 90, "rq"⟩ "s" "req" [⟨1, ⟨"x", none, none⟩⟩]).1,
   (synchronous_phaseA_timeout ⟨10, 90, "rq"⟩ "s" "req" [⟨1, ⟨"x", none, none⟩⟩]).2.1,
   (synchronous_phaseA_timeout ⟨10, 90, "rq"⟩ "s" "req" [⟨1, ⟨"x", none, none⟩⟩]).2.2
     (by intro ev hm; simp at hm; simp [hm])⟩

/-- C10: when the envelope matched in phase A is a terminal reply rather than
a `started` status, a failure raises `RemoteException` immediately, while a
success has its `retval` discarded — `send` proceeds to phase B on the
remaining queue with budget `timeout.duration` and its outcome is whatever
phase B produces. -/
theorem synchronous_phaseA_terminal (p : Synchronous.Policy) (sn request : String)
    (stream : List FetchEvent) (env : Reply)
    (hf : (Reader.search sn p.start stream).found = some env)
    (hs : env.status ≠ some "started") :
    (∀ v, env.result = some (Return.value v) →
      (Synchronous.send p sn request stream).2 =
        Synchronous.getReply sn p.duration (Reader.search sn p.start stream).rest) ∧
    (∀ e, env.result = some (Return.exception e) →
      (Synchronous.send p sn request stream).2 = (Outcome.remoteExc e, [])) := by
  constructor
  · intro v hv
    simp [Synchronous.send, Synchronous.getStarted, hf, hs, hv, onReply]
  · intro e he
    simp [Synchronous.send, Synchronous.getStarted, hf, hs, he, onReply]

/-- Witness for C10 at concrete inputs: a successful terminal reply in phase
A is discarded and the call goes on to phase B (here finding a second
terminal reply and returning its `retval`); a failed terminal reply in phase
A raises immediately. -/
theorem synchronous_phaseA_terminal_witness :
    (Synchronous.send ⟨5, 20, "rq"⟩ "s" "req"
        [⟨1, ⟨"s", none, some (Return.value "early")⟩⟩,
         ⟨1, ⟨"s", none, some (Return.value "late")⟩⟩]).2 =
      Synchronous.getReply "s" 20 [⟨1, ⟨"s", none, some (Return.value "late")⟩⟩] ∧
    (Synchronous.send ⟨5, 20, "rq"⟩ "s" "req"
        [⟨1, ⟨"s", none, some (Return.exception "boom")⟩⟩]).2 =
      (Outcome.remoteExc "boom", []) :=
  ⟨(synchronous_phaseA_terminal ⟨5, 20, "rq"⟩ "s" "req"
      [⟨1, ⟨"s", none, some (Return.value "early")⟩⟩,
       ⟨1, ⟨"s", none, some (Return.value "late")⟩⟩]
      ⟨"s", none, some (Return.value "early")⟩
      (by norm_num [Reader.search]) (by simp)).1 "early" rfl,
   (synchronous_phaseA_terminal ⟨5, 20, "rq"⟩ "s" "req"
      [⟨1, ⟨"s", none, some (Return.exception "boom")⟩⟩]
      ⟨"s", none, some (Return.exception "boom")⟩
      (by norm_num [Reader.search]) (by simp)).2 "boom" rfl⟩

/-- C7: `Asynchronous.send` returns the trigger unfired (still pending) when
the policy's trigger option is 1 and otherwise fires it exactly once and
returns its serial number; a pending trigger fires and becomes non-pending;
a non-pending trigger raises instead of sending; in particular firing the
trigger returned by a first successful fire raises. -/
theorem asynchronous_trigger_once (p : Asynchronous.Policy)
    (sn dest req : String) (t : Trigger) :
    (p.trigger = 1 →
      Asynchronous.send p sn dest req =
        Except.ok (AsyncSendResult.unfired (Trigger.new sn dest req)) ∧
      (Trigger.new sn dest req).pending = true) ∧
    (p.trigger ≠ 1 →
      Asynchronous.send p sn dest req =
        Except.ok (AsyncSendResult.fired sn ((Trigger.new sn dest req).fire p))) ∧
    (t.pending = true →
      t.call p = Except.ok ({ t with pending := false }, t.fire p)) ∧
    (t.pending = false → t.call p = Except.error "trigger already executed") ∧
    (∀ t' s, t.call p = Except.ok (t', s) →
      t'.call p = Except.error "trigger already executed") := by
  refine ⟨fun h => ⟨?_, rfl⟩, fun h => ?_, fun h => ?_, fun h => ?_,
    fun t' s h => ?_⟩
  · simp [Asynchronous.send, h]
  · simp only [Asynchronous.send, h, if_false, Trigger.call, Trigger.new, if_pos]
    rfl
  · simp [Trigger.call, h]
  · simp [Trigger.call, h]
  · by_cases hp : t.pending
    · simp only [Trigger.call, if_pos hp, Except.ok.injEq, Prod.mk.injEq] at h
      rw [Trigger.call, if_neg (by simp [h.1.symm])]
    · simp [Trigger.call, hp] at h

/-- Witness for C7 at concrete inputs: manual mode returns the pending
trigger; automatic mode fires and returns the serial number; refiring the
once-fired trigger raises. -/
theorem asynchronous_trigger_once_witness :
    Asynchronous.send ⟨some "ct", some 10, 1⟩ "s" "d" "r" =
      Except.ok (AsyncSendResult.unfired ⟨true, "s", "d", "r"⟩) ∧
    Asynchronous.send ⟨some "ct", some 10, 0⟩ "s" "d" "r" =
      Except.ok (AsyncSendResult.fired "s" ⟨"d", "s", some 10, some "ct", "r"⟩) ∧
    Trigger.call ⟨some "ct", some 10, 0⟩ ⟨false, "s", "d", "r"⟩ =
      Except.error "trigger already executed" :=
  ⟨((asynchronous_trigger_once ⟨some "ct", some 10, 1⟩ "s" "d" "r"
      ⟨true, "s", "d", "r"⟩).1 rfl).1,
   (asynchronous_trigger_once ⟨some "ct", some 10, 0⟩ "s" "d" "r"
      ⟨true, "s", "d", "r"⟩).2.1 (by decide),
   (asynchronous_trigger_once ⟨some "ct", some 10, 0⟩ "s" "d" "r"
      ⟨false, "s", "d", "r"⟩).2.2.2.1 rfl⟩

/-- C8 counterexample: the registry initially binds name "a" to plugin 0; an
attempt to load a new plugin 1 under the same name "a" overwrites that binding, and
when the import fails the rollback removes the entry entirely — the registry
ends empty instead of being restored to its prior state. -/
theorem pluginLoader_rollback_cex :
    rlookup [("a", 0)] "a" = some 0 ∧
    (importPlugin [("a", 0)] 1 ⟨"a", none, true, false, true⟩).1 = [] ∧
    rlookup (importPlugin [("a", 0)] 1 ⟨"a", none, true, false, true⟩).1 "a" =
      none := by
  refine ⟨rfl, ?_, ?_⟩ <;> rfl

/-- C8 (amended): when a plugin's import fails, `PluginLoader._import`
removes every registry entry mapping to the half-constructed plugin; provided
the names it registered were not previously bound to another plugin and the
plugin object is fresh, this restores the registry exactly (an overwritten
prior binding under the same name would be lost, not restored); and
`PluginLoader.load` continues with the remaining plugins exactly as if the
failed one had not been listed. -/
theorem pluginLoader_rollback (reg : Registry) (pid : Nat) (d : Desc)
    (rest : List Desc)
    (hname : rlookup reg d.name = none)
    (hpath : ∀ path, d.path = some path → rlookup reg path = none)
    (hpid : ∀ kv ∈ reg, kv.2 ≠ pid)
    (hfail : d.impOk = false ∨ d.postOk = false) :
    (importPlugin reg pid d).1 = reg ∧
    (importPlugin reg pid d).2 = none ∧
    (d.enabled = true →
      loadPlugins reg pid (d :: rest) = loadPlugins reg (pid + 1) rest) := by
  have hfn : reg.filter (fun kv => kv.1 ≠ d.name) = reg :=
    filter_key_eq_self reg d.name hname
  have hdel1 : rdelete (radd reg d.name pid) pid = reg := by
    show ((d.name, pid) :: reg.filter (fun kv => kv.1 ≠ d.name)).filter
        (fun kv => kv.2 ≠ pid) = reg
    rw [hfn, List.filter_cons, if_neg (by simp), filter_val_eq_self reg pid hpid]
  have hroll : (importPlugin reg pid d).1 = reg ∧ (importPlugin reg pid d).2 = none := by
    cases hp : d.path with
    | none =>
        cases himp : d.impOk with
        | false =>
            simp only [importPlugin, hp, himp, Bool.false_eq_true, if_false]
            exact ⟨hdel1, trivial⟩
        | true =>
            cases hpost : d.postOk with
            | false =>
                simp only [importPlugin, hp, himp, hpost, if_true,
                  Bool.false_eq_true, if_false]
                exact ⟨hdel1, trivial⟩
            | true => simp [himp, hpost] at hfail
    | some path =>
        have hlp : rlookup reg path = none := hpath path hp
        have hflp : reg.filter (fun kv => kv.1 ≠ path) = reg :=
          filter_key_eq_self reg path hlp
        cases himp : d.impOk with
        | false =>
            simp only [importPlugin, hp, himp, Bool.false_eq_true, if_false]
            exact ⟨hdel1, trivial⟩
        | true =>
            cases hpost : d.postOk with
            | false =>
                have hstep : rdelete (radd (radd reg d.name pid) path pid) pid = reg := by
                  have hreg1 : radd reg d.name pid = (d.name, pid) :: reg := by
                    show (d.name, pid) :: reg.filter (fun kv => kv.1 ≠ d.name) =
                      (d.name, pid) :: reg
                    rw [hfn]
                  rw [hreg1]
                  by_cases hnp : d.name = path
                  · have hinner : ((d.name, pid) :: reg).filter
                        (fun kv => kv.1 ≠ path) = reg := by
                      rw [List.filter_cons, if_neg (by simp [hnp]), hflp]
                    show ((path, pid) :: ((d.name, pid) :: reg).filter
                        (fun kv => kv.1 ≠ path)).filter (fun kv => kv.2 ≠ pid) = reg
                    rw [hinner, List.filter_cons, if_neg (by simp),
                      filter_val_eq_self reg pid hpid]
                  · have hinner : ((d.name, pid) :: reg).filter
                        (fun kv => kv.1 ≠ path) = (d.name, pid) :: reg := by
                      rw [List.filter_cons, if_pos (by simp [hnp]), hflp]
                    show ((path, pid) :: ((d.name, pid) :: reg).filter
                        (fun kv => kv.1 ≠ path)).filter (fun kv => kv.2 ≠ pid) = reg
                    rw [hinner, List.filter_cons, if_neg (by simp),
                      List.filter_cons, if_neg (by simp),
                      filter_val_eq_self reg pid hpid]
                simp only [importPlugin, hp, himp, hpost, if_true,
                  Bool.false_eq_true, if_false]
                exact ⟨hstep, trivial⟩
            | true => simp [himp, hpost] at hfail
  refine ⟨hroll.1, hroll.2, fun hen => ?_⟩
  rw [loadPlugins, if_pos hen]
  simp [hroll.1, hroll.2]

/-- Witness for C8 (amended) at concrete inputs: plugin 1 named "a" (fresh
name, fresh object) fails to import over a registry binding "x" to plugin 0;
the registry is restored and the remaining (empty) list loads as if the
failed plugin were absent. -/
theorem pluginLoader_rollback_witness :
    (importPlugin [("x", 0)] 1 ⟨"a", none, true, false, true⟩).1 = [("x", 0)] ∧
    (importPlugin [("x", 0)] 1 ⟨"a", none, true, false, true⟩).2 = none ∧
    loadPlugins [("x", 0)] 1 [⟨"a", none, true, false, true⟩] =
      loadPlugins [("x", 0)] 2 [] := by
  have h := pluginLoader_rollback [("x", 0)] 1 ⟨"a", none, true, false, true⟩ []
    (by rfl) (by intro path hp; cases hp) (by decide) (Or.inl rfl)
  exact ⟨h.1, h.2.1, h.2.2 rfl⟩

/-- C9 counterexample: two URLs sharing the scheme `tcp` but differing in
authority; binding the first leaves the second unbound (the map is keyed on
the full URL, not the scheme), and constructing a `Transport` for the second
mutates the map — it re-binds rather than returning a cached
implementation. -/
theorem transport_scheme_cex :
    (URL.mk "tcp" "h1:5672").scheme = (URL.mk "tcp" "h2:5672").scheme ∧
    plookup (Transport.bind [] (some ⟨"tcp", "h1:5672"⟩) none).1
        ⟨"tcp", "h2:5672"⟩ = none ∧
    (Transport.init (Transport.bind [] (some ⟨"tcp", "h1:5672"⟩) none).1
        (some ⟨"tcp", "h2:5672"⟩) none).1 ≠
      (Transport.bind [] (some ⟨"tcp", "h1:5672"⟩) none).1 := by
  refine ⟨rfl, ?_, ?_⟩ <;> decide

/-- C9 (amended): the process-wide map binds at most one implementation per
full URL: binding records the loaded package under the URL, re-binding the
same URL with the same package is idempotent, and constructing a `Transport`
for an already-bound URL returns the cached implementation without touching
the map.  The key is the whole URL, not merely its scheme. -/
theorem transport_bind_cached (pkgs : Packages) (url : Option URL)
    (package : Option String) (u : URL) (m : String) :
    (Transport.bind (Transport.bind pkgs url package).1 url package).1 =
      (Transport.bind pkgs url package).1 ∧
    plookup (Transport.bind pkgs (some u) package).1 u =
      some (Transport.load (Transport.normPkg package)) ∧
    (plookup pkgs u = some m →
      Transport.init pkgs (some u) package = (pkgs, ⟨u, m⟩)) := by
  refine ⟨?_, ?_, fun h => ?_⟩
  · simp only [Transport.bind, pupdate, List.filter_cons]
    rw [if_neg (by simp), List.filter_filter]
    simp
  · simp [Transport.bind, pupdate, plookup]
  · simp [Transport.init, h]

/-- Witness for C9 (amended) at concrete inputs: re-binding the default URL
twice equals binding it once; the binding is recorded; and a `Transport`
constructed for a cached URL leaves the map untouched. -/
theorem transport_bind_cached_witness :
    (Transport.bind (Transport.bind [] (some ⟨"tcp", "h1:5672"⟩) none).1
        (some ⟨"tcp", "h1:5672"⟩) none).1 =
      (Transport.bind [] (some ⟨"tcp", "h1:5672"⟩) none).1 ∧
    plookup (Transport.bind [] (some ⟨"tcp", "h1:5672"⟩) none).1
        ⟨"tcp", "h1:5672"⟩ = some "gofer.transport.amqplib" ∧
    Transport.init [(⟨"tcp", "h1:5672"⟩, "m")] (some ⟨"tcp", "h1:5672"⟩) none =
      ([(⟨"tcp", "h1:5672"⟩, "m")], ⟨⟨"tcp", "h1:5672"⟩, "m"⟩) :=
  ⟨(transport_bind_cached [] (some ⟨"tcp", "h1:5672"⟩) none
      ⟨"tcp", "h1:5672"⟩ "m").1,
   ((transport_bind_cached [] (some ⟨"tcp", "h1:5672"⟩) none
      ⟨"tcp", "h1:5672"⟩ "m").2.1).trans (by decide),
   (transport_bind_cached [(⟨"tcp", "h1:5672"⟩, "m")] (some ⟨"tcp", "h1:5672"⟩)
      none ⟨"tcp", "h1:5672"⟩ "m").2.2 rfl⟩

end Gofer
